import Mathlib

set_option maxRecDepth 8000

/-!
Verification of the simple-smtp-monitoring program (src/main.py) against its
specification.

The Python source is shallowly embedded.  Pure string manipulation
(urllib.parse.urlparse, str.split, int()) is translated into executable Lean
functions.  Network and SMTP effects are passed in as explicit oracles
describing the outcome of each external call (an Except value standing for
"returned normally" versus "raised an exception with this message").  The
sqlite table events(id, ts, description) is a list of rows, appended at the
end.  Naive datetimes are modelled by their integer epoch seconds, the value
int(dt.timestamp()) that the source actually feeds into every sqlite query;
timedelta(hours=24) is the corresponding 86400-second shift.
-/

/-- One row of the sqlite table events(id TEXT, ts BIGINT, description TEXT). -/
structure Event where
  id : String
  ts : Int
  description : String
  deriving Repr, DecidableEq

/-- An email message as assembled by send_notification in src/main.py. -/
structure Notification where
  subject : String
  body : String
  from_email : String
  to_email : String
  deriving Repr, DecidableEq

/-! ## Model of urllib.parse.urlparse (the parts find_url_type depends on) -/

/-- Result of urllib.parse.urlparse: scheme, netloc, path, params, query,
fragment.  (Validation of bracketed IPv6 hosts is not modelled.) -/
structure ParseResult where
  scheme : String
  netloc : String
  path : String
  params : String
  query : String
  fragment : String
  deriving Repr, DecidableEq

/-- Characters allowed in a URI scheme by urllib (letters, digits, plus,
minus, dot). -/
def scheme_chars : List Char :=
  "abcdefghijklmnopqrstuvwxyzABCDEFGHIJKLMNOPQRSTUVWXYZ0123456789+-.".toList

/-- C0 control characters and space, stripped from both ends of the URL by
urlsplit. -/
def isC0OrSpace (c : Char) : Bool := c.toNat ≤ 32

/-- Strip characters satisfying p from both ends of a list. -/
def stripEnds (p : Char → Bool) (l : List Char) : List Char :=
  ((l.dropWhile p).reverse.dropWhile p).reverse

/-- urlsplit removes every ASCII tab, carriage return and newline. -/
def removeUnsafe (l : List Char) : List Char :=
  l.filter (fun c => !(c == '\t' || c == '\r' || c == '\n'))

/-- Scheme extraction of urlsplit: if the first colon appears at index i > 0,
the first character is an ASCII letter and everything before the colon is a
scheme character, the (lower-cased) prefix is the scheme and the rest follows
the colon; otherwise the scheme is empty and the URL is unchanged. -/
def extract_scheme (l : List Char) : String × List Char :=
  match l.findIdx? (fun c => c == ':') with
  | none => ("", l)
  | some i =>
    match i, l with
    | j + 1, c0 :: _ =>
      if c0.isAlpha && ((l.take (j + 1)).all (fun c => scheme_chars.contains c)) then
        (String.mk ((l.take (j + 1)).map Char.toLower), l.drop (j + 2))
      else ("", l)
    | _, _ => ("", l)

/-- Netloc extraction of urlsplit: if the remainder starts with two slashes,
the netloc runs up to the next slash, question mark or hash sign. -/
def split_netloc (l : List Char) : List Char × List Char :=
  match l with
  | '/' :: '/' :: rest =>
    match rest.findIdx? (fun c => c == '/' || c == '?' || c == '#') with
    | none => (rest, [])
    | some j => (rest.take j, rest.drop j)
  | _ => ([], l)

/-- Split a list at the first occurrence of c: (before, after), the whole list
and [] when c does not occur. -/
def split_first (c : Char) (l : List Char) : List Char × List Char :=
  match l.findIdx? (fun x => x == c) with
  | none => (l, [])
  | some i => (l.take i, l.drop (i + 1))

/-- Index of the first occurrence of c at or after position start. -/
def find_from (c : Char) (start : Nat) (l : List Char) : Option Nat :=
  match (l.drop start).findIdx? (fun x => x == c) with
  | none => none
  | some k => some (start + k)

/-- Index of the last occurrence of c. -/
def rfind_idx (c : Char) (l : List Char) : Option Nat :=
  match l.reverse.findIdx? (fun x => x == c) with
  | none => none
  | some k => some (l.length - 1 - k)

/-- Schemes for which urlparse splits params off the path (CPython
uses_params). -/
def uses_params : List String :=
  ["", "ftp", "hdl", "prospero", "http", "imap", "https", "shttp", "rtsp",
   "rtspu", "sip", "sips", "mms", "sftp", "tel"]

/-- The _splitparams helper of urlparse: split the path at the first semicolon
in its last segment. -/
def split_params (l : List Char) : List Char × List Char :=
  if l.contains '/' then
    match find_from ';' ((rfind_idx '/' l).getD 0) l with
    | none => (l, [])
    | some i => (l.take i, l.drop (i + 1))
  else
    match l.findIdx? (fun x => x == ';') with
    | none => (l, [])
    | some i => (l.take i, l.drop (i + 1))

/-- Model of urllib.parse.urlparse. -/
def urlparse (url : String) : ParseResult :=
  let l0 := removeUnsafe (stripEnds isC0OrSpace url.toList)
  let sr := extract_scheme l0
  let nr := split_netloc sr.2
  let fr := split_first '#' nr.2
  let qr := split_first '?' fr.1
  let pr :=
    if uses_params.contains sr.1 && qr.1.contains ';' then split_params qr.1
    else (qr.1, [])
  { scheme := sr.1, netloc := String.mk nr.1, path := String.mk pr.1,
    params := String.mk pr.2, query := String.mk qr.2,
    fragment := String.mk fr.2 }

/-- Python str.isdigit for ASCII strings: non-empty and all digits. -/
def str_isdigit (s : String) : Bool := !s.isEmpty && s.toList.all Char.isDigit

/-! ## Endpoint classifier (find_url_type in src/main.py) -/

/-- find_url_type: "urllib" for scheme http/https, "telnet" when the parsed
path is all digits, otherwise the MonitoringException message. -/
def find_url_type (url : String) : Except String String :=
  if (urlparse url).scheme = "http" ∨ (urlparse url).scheme = "https" then
    Except.ok "urllib"
  else if str_isdigit (urlparse url).path then
    Except.ok "telnet"
  else
    Except.error ("cannot determine type: " ++ url)

/-! ## Model of Python int() on strings, used by telnet for the port -/

/-- Tail of an integer literal: digits, with single underscores allowed
between digits. -/
def digit_tail : List Char → Bool
  | [] => true
  | '_' :: c :: rest => c.isDigit && digit_tail rest
  | c :: rest => c.isDigit && digit_tail rest

/-- A non-empty digit sequence with single underscores between digits. -/
def digit_groups : List Char → Bool
  | [] => false
  | c :: rest => c.isDigit && digit_tail rest

/-- Numeric value of a digit-and-underscore sequence. -/
def nat_of_digits (l : List Char) : Nat :=
  l.foldl (fun a c => if c == '_' then a else a * 10 + (c.toNat - 48)) 0

/-- Python int(s) on a string: strip whitespace, optional sign, digit groups;
none models the ValueError raised on anything else. -/
def py_int_parse (s : String) : Option Int :=
  match ((s.toList.dropWhile Char.isWhitespace).reverse.dropWhile
      Char.isWhitespace).reverse with
  | '+' :: rest =>
    if digit_groups rest then some (nat_of_digits rest : Int) else none
  | '-' :: rest =>
    if digit_groups rest then some (-(nat_of_digits rest : Int)) else none
  | rest => if digit_groups rest then some (nat_of_digits rest : Int) else none

/-! ## Probe executors (telnet and request in src/main.py) -/

/-- traceback.format_exc(): a full diagnostic trace for the exception text. -/
def format_exc (e : String) : String :=
  "Traceback (most recent call last):\n" ++ e

/-- Helper for py_split: the accumulator holds the current piece reversed. -/
def py_split_aux (sep : Char) : List Char → List Char → List (List Char)
  | [], acc => [acc.reverse]
  | c :: rest, acc =>
    if c == sep then acc.reverse :: py_split_aux sep rest []
    else py_split_aux sep rest (c :: acc)

/-- Python str.split with a one-character separator: every occurrence splits,
and the empty string gives [""]. -/
def py_split (sep : Char) (s : String) : List String :=
  (py_split_aux sep s.toList []).map String.mk

/-- Body of telnet before its except-clause: split the URL at every colon
expecting exactly two parts, parse the port with int(), then open the
connection with a 10-second timeout.  Errors are the exceptions the body
raises; the connect oracle gives the network's behavior for host, port,
timeout. -/
def telnetBody (url : String)
    (connect : String → Int → Int → Except String Unit) :
    Except String (Bool × String) :=
  match py_split ':' url with
  | [host, port] =>
    match py_int_parse port with
    | none =>
      Except.error ("invalid literal for int() with base 10: " ++ port)
    | some p =>
      match connect host p 10 with
      | Except.ok _ => Except.ok (true, "")
      | Except.error e => Except.error e
  | parts =>
    Except.error
      (if parts.length < 2 then "not enough values to unpack (expected 2)"
       else "too many values to unpack (expected 2)")

/-- telnet in src/main.py: its body with every exception converted to
(False, traceback.format_exc()). -/
def telnet (url : String)
    (connect : String → Int → Int → Except String Unit) : Bool × String :=
  match telnetBody url connect with
  | Except.ok r => r
  | Except.error e => (false, format_exc e)

/-- Outcome of urlopen(url) together with response.read(): completed
normally, raised HTTPError with a status and reason, or raised some other
exception. -/
inductive HttpResult where
  | success
  | httpError (status : Int) (reason : String)
  | otherError (exc : String)
  deriving Repr, DecidableEq

/-- request in src/main.py: success gives (True, ""), an HTTPError with
status at least 500 gives (False, reason), a smaller status gives
(True, ""), any other exception gives (False, traceback.format_exc()). -/
def request (url : String) (net : String → HttpResult) : Bool × String :=
  match net url with
  | HttpResult.success => (true, "")
  | HttpResult.httpError status reason =>
    if 500 ≤ status then (false, reason) else (true, "")
  | HttpResult.otherError e => (false, format_exc e)

/-- run_url in src/main.py: classify, then dispatch to request or telnet; a
classification failure propagates. -/
def run_url (url : String) (net : String → HttpResult)
    (connect : String → Int → Int → Except String Unit) :
    Except String (Bool × String) :=
  match find_url_type url with
  | Except.error e => Except.error e
  | Except.ok t =>
    if t = "urllib" then Except.ok (request url net)
    else if t = "telnet" then Except.ok (telnet url connect)
    else Except.error ("cannot determine type: " ++ url)

/-! ## Event store (log_event and query_event_count in src/main.py) -/

/-- log_event: insert one row into events.  The id and timestamp come from
uuid.uuid4() and time.time() at the call site; here they are explicit
arguments. -/
def log_event (db : List Event) (id : String) (ts : Int)
    (event : String) : List Event :=
  db ++ [{ id := id, ts := ts, description := event }]

/-- query_event_count: select count(*) from events where description = event
and ts >= start and ts <= stop.  The datetime arguments of the source are
modelled by their epoch seconds, the value int(dt.timestamp()) it binds. -/
def query_event_count (db : List Event) (event : String)
    (start stop : Int) : Nat :=
  (db.filter (fun e =>
    e.description == event && decide (start ≤ e.ts) && decide (e.ts ≤ stop))).length

/-! ## Notifier and the regular-mode orchestrator -/

/-- send_notification in src/main.py builds this message from subject, body,
from and to; delivery is the smtp oracle's business. -/
def send_notification (subject message from_email to_email : String) :
    Notification :=
  { subject := subject, body := message, from_email := from_email,
    to_email := to_email }

/-- build_message in src/main.py (the f-string body of the failure alert). -/
def build_message (url context : String) : String :=
  "\n    Job check for " ++ url ++ " failed.\n\n    Exception:\n    " ++
    context ++ "\n\n    "

/-- The mutable state run_regular threads: the events table and the
notifications delivered so far. -/
structure RunState where
  db : List Event
  sent : List Notification
  deriving Repr, DecidableEq

/-- run_regular in src/main.py.  net and connect give each probe's network
behavior, smtp gives send_message's behavior (ok or raised exception), gen
supplies the uuid and time.time() value for the n-th insert of the store.
The result is the final state and the exception that aborted the loop, if
any. -/
def run_regular (net : String → HttpResult)
    (connect : String → Int → Int → Except String Unit)
    (smtp : Notification → Except String Unit) (gen : Nat → String × Int)
    (from_email to_email : String) :
    List String → RunState → RunState × Option String
  | [], s => (s, none)
  | url :: rest, s =>
    match run_url url net connect with
    | Except.error e => (s, some e)
    | Except.ok (status, context) =>
      if status then
        run_regular net connect smtp gen from_email to_email rest
          { db := log_event s.db (gen s.db.length).1 (gen s.db.length).2
              ("success " ++ url),
            sent := s.sent }
      else
        match smtp (send_notification ("[URGENT] Service failed for url " ++ url)
            (build_message url context) from_email to_email) with
        | Except.error e => (s, some e)
        | Except.ok _ =>
          run_regular net connect smtp gen from_email to_email rest
            { db := log_event s.db (gen s.db.length).1 (gen s.db.length).2
                ("failed " ++ url),
              sent := s.sent ++
                [send_notification ("[URGENT] Service failed for url " ++ url)
                  (build_message url context) from_email to_email] }

/-! ## Resume-mode orchestrator (run_resume in src/main.py) -/

/-- The loop of run_resume building url_status_list by successive appends. -/
def resume_loop (db : List Event) (yesterday today : Int) :
    List String → List (String × Nat × Nat) → List (String × Nat × Nat)
  | [], acc => acc
  | url :: rest, acc =>
    resume_loop db yesterday today rest
      (acc ++ [(url, query_event_count db ("failed " ++ url) yesterday today,
        query_event_count db ("success " ++ url) yesterday today)])

/-- str.join of Python: concatenate with a separator. -/
def join_sep (sep : String) : List String → String
  | [] => ""
  | [x] => x
  | x :: rest => x ++ sep ++ join_sep sep rest

/-- One line of the per-URL digest section (url, failed, success). -/
def per_url_line (x : String × Nat × Nat) : String :=
  x.1 ++ ": " ++ toString x.2.1 ++ " / " ++ toString (x.2.2 + x.2.1)

/-- Everything run_resume computes before delivering the digest. -/
structure ResumeReport where
  url_status_list : List (String × Nat × Nat)
  total_errors : Nat
  total_runs : Nat
  message : String
  notification : Notification
  deriving Repr, DecidableEq

/-- run_resume in src/main.py.  now is the epoch second of datetime.now();
yesterday is 24 hours = 86400 seconds earlier; fmt renders an epoch second
the way isoformat().split between periods does for the window boundaries. -/
def run_resume (db : List Event) (urls : List String) (now : Int)
    (fmt : Int → String) (from_email to_email : String) : ResumeReport :=
  let yesterday := now - 86400
  let lst := resume_loop db yesterday now urls []
  let total_errors := (lst.map (fun x => x.2.1)).sum
  let total_runs := total_errors + (lst.map (fun x => x.2.2)).sum
  let pum := "\t" ++ join_sep "\n\t" (lst.map per_url_line)
  let message := "\n    Here is your summary from " ++ fmt yesterday ++
    " until " ++ fmt now ++ ":\n\n    Total Runs: " ++ toString total_runs ++
    "\n    Total Errors:  " ++ toString total_errors ++
    "\n    \n    Per URL (url: errors / runs):\n    " ++ pum ++
    "\n\n    Have a great day!\n    "
  { url_status_list := lst, total_errors := total_errors,
    total_runs := total_runs, message := message,
    notification :=
      send_notification "Monitoring Daily Resume" message from_email to_email }

/-! ## Spec-side model for the refinement claim about the TCP probe -/

/-- Split a string at the last occurrence of c. -/
def rsplit_last (c : Char) (s : String) : Option (String × String) :=
  match rfind_idx c s.toList with
  | none => none
  | some i => some (String.mk (s.toList.take i), String.mk (s.toList.drop (i + 1)))

/-- Spec-side model of the TCP probe, following the specification's words
(section 4.3): split hostPort into host and port at the LAST colon, attempt a
TCP connect with a 10-second timeout, on success close and report success with
empty detail, and report any failure with a diagnostic trace.  It exists only
to be compared with telnet, the definition translated from the source. -/
def telnet_spec (url : String)
    (connect : String → Int → Int → Except String Unit) : Bool × String :=
  match rsplit_last ':' url with
  | none => (false, format_exc "ValueError: no colon in hostPort")
  | some (host, port) =>
    match py_int_parse port with
    | none => (false, format_exc ("invalid literal for int() with base 10: " ++ port))
    | some p =>
      match connect host p 10 with
      | Except.ok _ => (true, "")
      | Except.error e => (false, format_exc e)

/-- Harness for the round-trip claim: append one event per (id, timestamp)
pair, all with the same description, through log_event. -/
def append_events (d : String) : List (String × Int) → List Event → List Event
  | [], db => db
  | x :: rest, db => append_events d rest (log_event db x.1 x.2 d)

/-! ## Helper lemmas -/

theorem format_exc_ne (e : String) : format_exc e ≠ "" := by
  intro h
  have h2 := congrArg String.length h
  simp [format_exc, String.length_append] at h2
  exact absurd h2.1 (by decide)

theorem telnetBody_ok (url : String)
    (connect : String → Int → Int → Except String Unit) (r : Bool × String)
    (h : telnetBody url connect = Except.ok r) : r = (true, "") := by
  unfold telnetBody at h
  repeat' split at h
  all_goals simp_all

theorem query_event_count_append (db1 db2 : List Event) (d : String)
    (s e : Int) :
    query_event_count (db1 ++ db2) d s e =
      query_event_count db1 d s e + query_event_count db2 d s e := by
  simp [query_event_count, List.filter_append]

theorem query_event_count_singleton (id : String) (ts : Int) (d d' : String)
    (s e : Int) :
    query_event_count [{ id := id, ts := ts, description := d' }] d s e =
      if d' = d ∧ s ≤ ts ∧ ts ≤ e then 1 else 0 := by
  by_cases h1 : d' = d <;> by_cases h2 : s ≤ ts <;> by_cases h3 : ts ≤ e <;>
    simp [query_event_count, List.filter_cons, h1, h2, h3]

theorem append_events_eq (d : String) (items : List (String × Int))
    (db : List Event) :
    append_events d items db =
      db ++ items.map (fun x => { id := x.1, ts := x.2, description := d }) := by
  induction items generalizing db with
  | nil => simp [append_events]
  | cons x rest ih => simp [append_events, log_event, ih]

theorem resume_loop_eq (db : List Event) (y t : Int) (urls : List String)
    (acc : List (String × Nat × Nat)) :
    resume_loop db y t urls acc =
      acc ++ urls.map (fun u =>
        (u, query_event_count db ("failed " ++ u) y t,
         query_event_count db ("success " ++ u) y t)) := by
  induction urls generalizing acc with
  | nil => simp [resume_loop]
  | cons u rest ih => simp [resume_loop, ih]

theorem run_regular_append (net : String → HttpResult)
    (connect : String → Int → Int → Except String Unit)
    (smtp : Notification → Except String Unit) (gen : Nat → String × Int)
    (fe te : String) (pre rest : List String) (s : RunState) :
    run_regular net connect smtp gen fe te (pre ++ rest) s =
      (match run_regular net connect smtp gen fe te pre s with
       | (s1, none) => run_regular net connect smtp gen fe te rest s1
       | (s1, some e) => (s1, some e)) := by
  induction pre generalizing s with
  | nil => simp [run_regular]
  | cons url pre ih =>
    simp only [List.cons_append, run_regular]
    rcases hru : run_url url net connect with e | sc
    · simp
    · obtain ⟨status, context⟩ := sc
      cases status with
      | true => simpa using ih _
      | false =>
        rcases hsm : smtp (send_notification
            ("[URGENT] Service failed for url " ++ url)
            (build_message url context) fe te) with e | u
        · simp [hsm]
        · simp only [hsm]
          simpa using ih _

/-! ## Claim theorems -/

/-- Claim C2: classification returns the HTTP probe kind for every endpoint
whose parsed scheme is http or https; otherwise, when the parsed path
component is composed entirely of digits, it returns the TCP probe kind; for
any other string it fails with the UnrecognizedEndpoint message carrying the
original descriptor. -/
theorem claim_C2 (url : String) :
    ((urlparse url).scheme = "http" ∨ (urlparse url).scheme = "https" →
      find_url_type url = Except.ok "urllib") ∧
    (¬((urlparse url).scheme = "http" ∨ (urlparse url).scheme = "https") →
      str_isdigit (urlparse url).path = true →
      find_url_type url = Except.ok "telnet") ∧
    (¬((urlparse url).scheme = "http" ∨ (urlparse url).scheme = "https") →
      str_isdigit (urlparse url).path = false →
      find_url_type url = Except.error ("cannot determine type: " ++ url)) := by
  refine ⟨fun h => ?_, fun h1 h2 => ?_, fun h1 h2 => ?_⟩ <;>
    simp [find_url_type, *]

/-- Witness for claim C2 at one concrete endpoint of each class. -/
theorem claim_C2_witness :
    find_url_type "http://a.com" = Except.ok "urllib" ∧
    find_url_type "example.com:8080" = Except.ok "telnet" ∧
    find_url_type "ftp://x.com" =
      Except.error ("cannot determine type: " ++ "ftp://x.com") :=
  ⟨(claim_C2 "http://a.com").1 (Or.inl (by decide)),
   (claim_C2 "example.com:8080").2.1 (by decide) (by decide),
   (claim_C2 "ftp://x.com").2.2 (by decide) (by decide)⟩

/-- Claim C3: the HTTP probe returns success with empty detail when the
request completes or raises an HTTPError with status below 500, failure with
the server-provided reason phrase when the status is at least 500, and failure
with a full diagnostic trace for any other, transport-level, exception. -/
theorem claim_C3 (url : String) (net : String → HttpResult) :
    (net url = HttpResult.success → request url net = (true, "")) ∧
    (∀ st rs, net url = HttpResult.httpError st rs → st < 500 →
      request url net = (true, "")) ∧
    (∀ st rs, net url = HttpResult.httpError st rs → 500 ≤ st →
      request url net = (false, rs)) ∧
    (∀ ex, net url = HttpResult.otherError ex →
      request url net = (false, format_exc ex) ∧ format_exc ex ≠ "") :=
  ⟨fun h => by simp [request, h],
   fun st rs h hlt => by
    have hn : ¬(500 : Int) ≤ st := by omega
    simp [request, h, hn],
   fun st rs h hge => by simp [request, h, hge],
   fun ex h => ⟨by simp [request, h], format_exc_ne ex⟩⟩

/-- Witness for claim C3 at one concrete outcome of each kind. -/
theorem claim_C3_witness :
    request "http://a.com" (fun _ => HttpResult.success) = (true, "") ∧
    request "http://a.com" (fun _ => HttpResult.httpError 404 "Not Found") =
      (true, "") ∧
    request "http://a.com" (fun _ => HttpResult.httpError 503 "Unavailable") =
      (false, "Unavailable") ∧
    request "http://a.com" (fun _ => HttpResult.otherError "ConnectionRefusedError") =
      (false, format_exc "ConnectionRefusedError") :=
  ⟨(claim_C3 "http://a.com" (fun _ => HttpResult.success)).1 rfl,
   (claim_C3 "http://a.com" (fun _ => HttpResult.httpError 404 "Not Found")).2.1
     404 "Not Found" rfl (by decide),
   (claim_C3 "http://a.com" (fun _ => HttpResult.httpError 503 "Unavailable")).2.2.1
     503 "Unavailable" rfl (by decide),
   ((claim_C3 "http://a.com" (fun _ => HttpResult.otherError "ConnectionRefusedError")).2.2.2
     "ConnectionRefusedError" rfl).1⟩

/-- Claim C5: query_event_count returns the number of stored events whose
description equals the argument exactly and whose timestamp lies in the
inclusive window, and a window collapsed to one stored event's own timestamp
counts that event. -/
theorem claim_C5 (db : List Event) (d : String) (s e : Int) :
    query_event_count db d s e =
      (db.filter (fun ev =>
        decide (ev.description = d ∧ s ≤ ev.ts ∧ ev.ts ≤ e))).length ∧
    (∀ ev ∈ db, ev.description = d →
      1 ≤ query_event_count db d ev.ts ev.ts) := by
  constructor
  · unfold query_event_count
    congr 1
    apply List.filter_congr
    intro ev _
    by_cases hd : ev.description = d <;> by_cases h1 : s ≤ ev.ts <;>
      by_cases h2 : ev.ts ≤ e <;> simp [hd, h1, h2]
  · intro ev hmem hdesc
    unfold query_event_count
    have hm : ev ∈ db.filter (fun x =>
        x.description == d && decide (ev.ts ≤ x.ts) && decide (x.ts ≤ ev.ts)) := by
      refine List.mem_filter.mpr ⟨hmem, ?_⟩
      simp [hdesc]
    exact List.length_pos.mpr (List.ne_nil_of_mem hm)

/-- Witness for claim C5 on a one-event store with a collapsed window. -/
theorem claim_C5_witness :
    query_event_count [({ id := "a", ts := 5, description := "x" } : Event)] "x" 5 5 =
      ([({ id := "a", ts := 5, description := "x" } : Event)].filter (fun ev =>
        decide (ev.description = "x" ∧ 5 ≤ ev.ts ∧ ev.ts ≤ 5))).length ∧
    1 ≤ query_event_count [({ id := "a", ts := 5, description := "x" } : Event)] "x" 5 5 :=
  ⟨(claim_C5 [({ id := "a", ts := 5, description := "x" } : Event)] "x" 5 5).1,
   (claim_C5 [({ id := "a", ts := 5, description := "x" } : Event)] "x" 5 5).2
     ({ id := "a", ts := 5, description := "x" } : Event) (by simp) rfl⟩

theorem query_event_count_cons (ev : Event) (db : List Event) (d : String)
    (s e : Int) :
    query_event_count (ev :: db) d s e =
      (if ev.description = d ∧ s ≤ ev.ts ∧ ev.ts ≤ e then 1 else 0) +
        query_event_count db d s e := by
  by_cases h1 : ev.description = d <;> by_cases h2 : s ≤ ev.ts <;>
    by_cases h3 : ev.ts ≤ e <;>
    simp [query_event_count, List.filter_cons, h1, h2, h3, Nat.add_comm]

theorem query_map_all (d : String) (items : List (String × Int)) (s e : Int)
    (h : ∀ x ∈ items, s ≤ x.2 ∧ x.2 ≤ e) :
    query_event_count
      (items.map (fun x => { id := x.1, ts := x.2, description := d })) d s e =
      items.length := by
  induction items with
  | nil => rfl
  | cons x rest ih =>
    have hx := h x (by simp)
    have hr := ih (fun y hy => h y (List.mem_cons_of_mem _ hy))
    simp only [List.map_cons, query_event_count_cons, hr, List.length_cons]
    simp [hx.1, hx.2, Nat.add_comm]

theorem query_map_none (d : String) (items : List (String × Int)) (s e : Int)
    (h : ∀ x ∈ items, ¬(s ≤ x.2 ∧ x.2 ≤ e)) :
    query_event_count
      (items.map (fun x => { id := x.1, ts := x.2, description := d })) d s e =
      0 := by
  induction items with
  | nil => rfl
  | cons x rest ih =>
    have hx := h x (by simp)
    have hr := ih (fun y hy => h y (List.mem_cons_of_mem _ hy))
    simp only [List.map_cons, query_event_count_cons, hr]
    simp [hx]

/-- Claim C6: appending N events with one description to an empty store and
then counting that description over a window covering every appended
timestamp returns exactly N, while a window lying entirely before the
earliest or entirely after the latest timestamp returns 0. -/
theorem claim_C6 (d : String) (items : List (String × Int))
    (s e b1 b2 a1 a2 : Int)
    (hcov : ∀ x ∈ items, s ≤ x.2 ∧ x.2 ≤ e)
    (hbefore : ∀ x ∈ items, b2 < x.2)
    (hafter : ∀ x ∈ items, x.2 < a1) :
    query_event_count (append_events d items []) d s e = items.length ∧
    query_event_count (append_events d items []) d b1 b2 = 0 ∧
    query_event_count (append_events d items []) d a1 a2 = 0 := by
  rw [append_events_eq]
  simp only [List.nil_append]
  refine ⟨query_map_all d items s e hcov, query_map_none d items b1 b2 ?_,
    query_map_none d items a1 a2 ?_⟩
  · intro x hx hcontra
    exact absurd hcontra.2 (not_le.mpr (hbefore x hx))
  · intro x hx hcontra
    exact absurd hcontra.1 (not_le.mpr (hafter x hx))

/-- Witness for claim C6: three appended events, one covering window, one
window before the earliest timestamp and one after the latest. -/
theorem claim_C6_witness :
    query_event_count
      (append_events "success http://a" [("i1", 1), ("i2", 2), ("i3", 3)] [])
      "success http://a" 0 10 = 3 ∧
    query_event_count
      (append_events "success http://a" [("i1", 1), ("i2", 2), ("i3", 3)] [])
      "success http://a" (-5) 0 = 0 ∧
    query_event_count
      (append_events "success http://a" [("i1", 1), ("i2", 2), ("i3", 3)] [])
      "success http://a" 4 9 = 0 :=
  claim_C6 "success http://a" [("i1", 1), ("i2", 2), ("i3", 3)] 0 10 (-5) 0 4 9
    (by decide) (by decide) (by decide)

/-- Claim C7: in resume mode the window is the 86400 seconds up to now; each
endpoint's failed and success descriptions are counted over that window;
total_errors is the sum of the failed counts and total_runs adds the success
counts; and the digest message lists per endpoint the line
"endpoint: failed / failed + success". -/
theorem claim_C7 (db : List Event) (urls : List String) (now : Int)
    (fmt : Int → String) (fe te : String) :
    (run_resume db urls now fmt fe te).url_status_list =
      urls.map (fun u =>
        (u, query_event_count db ("failed " ++ u) (now - 86400) now,
         query_event_count db ("success " ++ u) (now - 86400) now)) ∧
    (run_resume db urls now fmt fe te).total_errors =
      (urls.map (fun u =>
        query_event_count db ("failed " ++ u) (now - 86400) now)).sum ∧
    (run_resume db urls now fmt fe te).total_runs =
      (run_resume db urls now fmt fe te).total_errors +
      (urls.map (fun u =>
        query_event_count db ("success " ++ u) (now - 86400) now)).sum ∧
    (run_resume db urls now fmt fe te).message =
      "\n    Here is your summary from " ++ fmt (now - 86400) ++ " until " ++
      fmt now ++ ":\n\n    Total Runs: " ++
      toString ((run_resume db urls now fmt fe te).total_runs) ++
      "\n    Total Errors:  " ++
      toString ((run_resume db urls now fmt fe te).total_errors) ++
      "\n    \n    Per URL (url: errors / runs):\n    " ++ ("\t" ++
      join_sep "\n\t" (urls.map (fun u =>
        u ++ ": " ++
        toString (query_event_count db ("failed " ++ u) (now - 86400) now) ++
        " / " ++
        toString (query_event_count db ("failed " ++ u) (now - 86400) now +
          query_event_count db ("success " ++ u) (now - 86400) now)))) ++
      "\n\n    Have a great day!\n    " := by
  have hmap : (urls.map (fun u =>
      (u, query_event_count db ("failed " ++ u) (now - 86400) now,
       query_event_count db ("success " ++ u) (now - 86400) now))).map
        per_url_line =
      urls.map (fun u =>
        u ++ ": " ++
        toString (query_event_count db ("failed " ++ u) (now - 86400) now) ++
        " / " ++
        toString (query_event_count db ("failed " ++ u) (now - 86400) now +
          query_event_count db ("success " ++ u) (now - 86400) now)) := by
    induction urls with
    | nil => rfl
    | cons u rest ih => simp [per_url_line, ih, Nat.add_comm]
  refine ⟨?_, ?_, ?_, ?_⟩ <;>
    simp [run_resume, resume_loop_eq, hmap, List.map_map, Function.comp_def,
      String.append_assoc]

/-- Claim C1: in regular mode, an endpoint whose probe completes appends
exactly one Event to the store: on a failed probe, a notification with subject
"[URGENT] Service failed for url {endpoint}" is sent (assuming delivery
succeeds, the failing-delivery case being the subject of the ordering claim)
and the single event "failed {endpoint}" is appended; on a successful probe
the single event "success {endpoint}" is appended and nothing is sent. -/
theorem claim_C1 (net : String → HttpResult)
    (connect : String → Int → Int → Except String Unit)
    (smtp : Notification → Except String Unit) (gen : Nat → String × Int)
    (fe te : String) (url : String) (rest : List String) (s : RunState)
    (status : Bool) (context : String)
    (hrun : run_url url net connect = Except.ok (status, context))
    (hsend : status = false →
      smtp (send_notification ("[URGENT] Service failed for url " ++ url)
        (build_message url context) fe te) = Except.ok ()) :
    run_regular net connect smtp gen fe te (url :: rest) s =
      (if status then
        run_regular net connect smtp gen fe te rest
          { db := s.db ++
              [⟨(gen s.db.length).1, (gen s.db.length).2, "success " ++ url⟩],
            sent := s.sent }
      else
        run_regular net connect smtp gen fe te rest
          { db := s.db ++
              [⟨(gen s.db.length).1, (gen s.db.length).2, "failed " ++ url⟩],
            sent := s.sent ++
              [send_notification ("[URGENT] Service failed for url " ++ url)
                (build_message url context) fe te] }) := by
  cases status with
  | true => simp [run_regular, hrun, log_event]
  | false =>
    have hs := hsend rfl
    simp [run_regular, hrun, hs, log_event]

/-- Witness for claim C1: one succeeding endpoint and one failing endpoint,
each producing exactly their one event. -/
theorem claim_C1_witness :
    run_regular (fun _ => HttpResult.success) (fun _ _ _ => Except.ok ())
      (fun _ => Except.ok ()) (fun n => (toString n, (n : Int))) "f" "t"
      ["http://a.com"] { db := [], sent := [] } =
      ({ db := [⟨"0", 0, "success http://a.com"⟩], sent := [] }, none) ∧
    run_regular (fun _ => HttpResult.httpError 500 "boom")
      (fun _ _ _ => Except.ok ()) (fun _ => Except.ok ())
      (fun n => (toString n, (n : Int))) "f" "t"
      ["http://a.com"] { db := [], sent := [] } =
      ({ db := [⟨"0", 0, "failed http://a.com"⟩],
         sent := [send_notification
           "[URGENT] Service failed for url http://a.com"
           (build_message "http://a.com" "boom") "f" "t"] }, none) := by
  constructor
  · rw [claim_C1 (fun _ => HttpResult.success) (fun _ _ _ => Except.ok ())
      (fun _ => Except.ok ()) (fun n => (toString n, (n : Int))) "f" "t"
      "http://a.com" [] { db := [], sent := [] } true "" rfl
      (fun hh => absurd hh (by decide))]
    rfl
  · rw [claim_C1 (fun _ => HttpResult.httpError 500 "boom")
      (fun _ _ _ => Except.ok ()) (fun _ => Except.ok ())
      (fun n => (toString n, (n : Int))) "f" "t"
      "http://a.com" [] { db := [], sent := [] } false "boom" rfl
      (fun _ => rfl)]
    rfl

/-- Claim C8: a classification failure in regular mode aborts the entire run:
the loop surfaces the UnrecognizedEndpoint message, the state stays exactly as
it was after the endpoints preceding the failing one, and no event is written
for the failing endpoint or for any endpoint listed after it (the conclusion
does not depend on post at all). -/
theorem claim_C8 (net : String → HttpResult)
    (connect : String → Int → Int → Except String Unit)
    (smtp : Notification → Except String Unit) (gen : Nat → String × Int)
    (fe te : String) (pre post : List String) (u emsg : String)
    (s0 s1 : RunState)
    (hu : find_url_type u = Except.error emsg)
    (hpre : run_regular net connect smtp gen fe te pre s0 = (s1, none)) :
    run_regular net connect smtp gen fe te (pre ++ u :: post) s0 =
      (s1, some emsg) := by
  rw [run_regular_append, hpre]
  have hru : run_url u net connect = Except.error emsg := by
    unfold run_url
    rw [hu]
  simp [run_regular, hru]

/-- Witness for claim C8: the descriptor "ftp://x.com" makes regular mode
fail fast with zero events written, even with an endpoint listed after it. -/
theorem claim_C8_witness :
    run_regular (fun _ => HttpResult.success) (fun _ _ _ => Except.ok ())
      (fun _ => Except.ok ()) (fun n => (toString n, (n : Int))) "f" "t"
      ["ftp://x.com", "http://b.com"] { db := [], sent := [] } =
      ({ db := [], sent := [] },
       some ("cannot determine type: " ++ "ftp://x.com")) :=
  claim_C8 (fun _ => HttpResult.success) (fun _ _ _ => Except.ok ())
    (fun _ => Except.ok ()) (fun n => (toString n, (n : Int))) "f" "t"
    [] ["http://b.com"] "ftp://x.com"
    ("cannot determine type: " ++ "ftp://x.com")
    { db := [], sent := [] } { db := [], sent := [] } rfl rfl

/-- Claim C10: the failure notification is sent before the failed event is
appended: when delivering the notification for endpoint u raises, the run
terminates with that exception, no "failed u" event is appended (the final
state equals the state after the preceding endpoints), and events already
appended for earlier endpoints remain stored. -/
theorem claim_C10 (net : String → HttpResult)
    (connect : String → Int → Int → Except String Unit)
    (smtp : Notification → Except String Unit) (gen : Nat → String × Int)
    (fe te : String) (pre post : List String) (u context emsg : String)
    (s0 s1 : RunState)
    (hpre : run_regular net connect smtp gen fe te pre s0 = (s1, none))
    (hfail : run_url u net connect = Except.ok (false, context))
    (hsend : smtp (send_notification ("[URGENT] Service failed for url " ++ u)
      (build_message u context) fe te) = Except.error emsg) :
    run_regular net connect smtp gen fe te (pre ++ u :: post) s0 =
      (s1, some emsg) := by
  rw [run_regular_append, hpre]
  simp [run_regular, hfail, hsend]

/-- Witness for claim C10: a first endpoint succeeds and is stored, the
second endpoint fails and its notification delivery raises, so the run stops
with only the first endpoint's event stored. -/
theorem claim_C10_witness :
    run_regular
      (fun x => if x = "http://b.com" then HttpResult.httpError 500 "boom"
        else HttpResult.success)
      (fun _ _ _ => Except.ok ()) (fun _ => Except.error "smtp down")
      (fun n => (toString n, (n : Int))) "f" "t"
      ["http://a.com", "http://b.com", "http://c.com"]
      { db := [], sent := [] } =
      ({ db := [⟨"0", 0, "success http://a.com"⟩], sent := [] },
       some "smtp down") :=
  claim_C10
    (fun x => if x = "http://b.com" then HttpResult.httpError 500 "boom"
      else HttpResult.success)
    (fun _ _ _ => Except.ok ()) (fun _ => Except.error "smtp down")
    (fun n => (toString n, (n : Int))) "f" "t"
    ["http://a.com"] ["http://c.com"] "http://b.com" "boom" "smtp down"
    { db := [], sent := [] }
    { db := [⟨"0", 0, "success http://a.com"⟩], sent := [] }
    rfl rfl rfl

/-- Counterexample for claim C4: the source does NOT split at the last colon.
On "a:b:80", with a connect oracle that always succeeds, the source's probe
raises in the two-variable unpacking and returns a failure with a trace, while
the spec-side probe, splitting at the last colon, connects and succeeds. -/
theorem claim_C4_counterexample :
    telnet "a:b:80" (fun _ _ _ => Except.ok ()) =
      (false, format_exc "too many values to unpack (expected 2)") ∧
    telnet_spec "a:b:80" (fun _ _ _ => Except.ok ()) = (true, "") ∧
    telnet "a:b:80" (fun _ _ _ => Except.ok ()) ≠
      telnet_spec "a:b:80" (fun _ _ _ => Except.ok ()) :=
  ⟨rfl, rfl, by decide⟩

/-- Claim C4 (amended): the TCP probe splits hostPort at ':' expecting
exactly one separator; with exactly one ':' and a numeric port it attempts a
TCP connect with a 10-second timeout, returning success with empty detail on
connect (closing the connection) and failure with a full diagnostic trace on
any connect exception; a non-numeric port, or a hostPort with zero or more
than one ':', yields failure with a full diagnostic trace without any connect
attempt. -/
theorem claim_C4_amended (url : String)
    (connect : String → Int → Int → Except String Unit) :
    (∀ h p n, py_split ':' url = [h, p] → py_int_parse p = some n →
      telnet url connect =
        (match connect h n 10 with
         | Except.ok _ => (true, "")
         | Except.error e => (false, format_exc e))) ∧
    (∀ h p, py_split ':' url = [h, p] → py_int_parse p = none →
      (telnet url connect).1 = false ∧ (telnet url connect).2 ≠ "") ∧
    ((py_split ':' url).length ≠ 2 →
      (telnet url connect).1 = false ∧ (telnet url connect).2 ≠ "") := by
  refine ⟨fun h p n hsplit hint => ?_, fun h p hsplit hint => ?_,
    fun hlen => ?_⟩
  · unfold telnet telnetBody
    rw [hsplit]
    simp only [hint]
    rcases hc : connect h n 10 with u | e <;> simp
  · unfold telnet telnetBody
    rw [hsplit]
    simp [hint, format_exc_ne]
  · rcases hs : py_split ':' url with _ | ⟨a, _ | ⟨b, _ | ⟨c, t⟩⟩⟩
    · unfold telnet telnetBody
      rw [hs]
      simp [format_exc_ne]
    · unfold telnet telnetBody
      rw [hs]
      simp [format_exc_ne]
    · rw [hs] at hlen
      simp at hlen
    · unfold telnet telnetBody
      rw [hs]
      simp [format_exc_ne]

/-- Witness for claim C4 (amended): a well-formed hostPort connecting and
refused, and a malformed hostPort with two colons. -/
theorem claim_C4_witness :
    telnet "localhost:80" (fun _ _ _ => Except.ok ()) = (true, "") ∧
    telnet "localhost:80" (fun _ _ _ => Except.error "ConnectionRefusedError") =
      (false, format_exc "ConnectionRefusedError") ∧
    (telnet "a:b:80" (fun _ _ _ => Except.ok ())).1 = false :=
  ⟨(claim_C4_amended "localhost:80" (fun _ _ _ => Except.ok ())).1
     "localhost" "80" 80 rfl rfl,
   (claim_C4_amended "localhost:80"
     (fun _ _ _ => Except.error "ConnectionRefusedError")).1
     "localhost" "80" 80 rfl rfl,
   ((claim_C4_amended "a:b:80" (fun _ _ _ => Except.ok ())).2.2
     (by decide)).1⟩

/-- Counterexample for claim C9: not every exception raised inside the HTTP
probe is converted into a failed outcome with a non-empty diagnostic trace —
the HTTPError exception with status 404 is converted into a SUCCESS outcome
with empty detail. -/
theorem claim_C9_counterexample :
    request "http://x.com" (fun _ => HttpResult.httpError 404 "Not Found") =
      (true, "") ∧
    ¬((request "http://x.com"
        (fun _ => HttpResult.httpError 404 "Not Found")).1 = false ∧
      (request "http://x.com"
        (fun _ => HttpResult.httpError 404 "Not Found")).2 ≠ "") :=
  ⟨rfl, by decide⟩

/-- Claim C9 (amended): both probe executors are total at their public
interface — every modelled exception is caught, never propagated.  In the TCP
probe every exception (including one from splitting a hostPort without
exactly one ':' or from a non-numeric port) yields a failed outcome with a
non-empty diagnostic trace, so a failed TCP outcome always carries a
non-empty detail.  In the HTTP probe an HTTPError is mapped by status — at
least 500 to a failed outcome whose detail is the reason phrase, below 500
to a success outcome — and every other exception yields a failed outcome
with a non-empty diagnostic trace. -/
theorem claim_C9_amended (url : String)
    (connect : String → Int → Int → Except String Unit)
    (net : String → HttpResult) :
    (∀ e, telnetBody url connect = Except.error e →
      telnet url connect = (false, format_exc e) ∧ format_exc e ≠ "") ∧
    ((telnet url connect).1 = false → (telnet url connect).2 ≠ "") ∧
    (∀ st rs, net url = HttpResult.httpError st rs →
      request url net = (if 500 ≤ st then (false, rs) else (true, ""))) ∧
    (∀ ex, net url = HttpResult.otherError ex →
      request url net = (false, format_exc ex) ∧ format_exc ex ≠ "") := by
  refine ⟨fun e he => ⟨?_, format_exc_ne e⟩, fun hfalse => ?_,
    fun st rs h => by simp [request, h], fun ex h =>
      ⟨by simp [request, h], format_exc_ne ex⟩⟩
  · unfold telnet
    rw [he]
  · rcases hb : telnetBody url connect with e | r
    · unfold telnet
      rw [hb]
      exact format_exc_ne e
    · have hr := telnetBody_ok url connect r hb
      unfold telnet at hfalse
      rw [hb, hr] at hfalse
      simp at hfalse

/-- Witness for claim C9 (amended): a missing colon, a non-numeric port and a
transport-level exception each yield a failed outcome with a non-empty
trace. -/
theorem claim_C9_witness :
    telnet "nocolon" (fun _ _ _ => Except.ok ()) =
      (false, format_exc "not enough values to unpack (expected 2)") ∧
    (telnet "host:xy" (fun _ _ _ => Except.ok ())).2 ≠ "" ∧
    request "http://x.com" (fun _ => HttpResult.otherError "socket.timeout") =
      (false, format_exc "socket.timeout") :=
  ⟨((claim_C9_amended "nocolon" (fun _ _ _ => Except.ok ())
      (fun _ => HttpResult.success)).1
      "not enough values to unpack (expected 2)" rfl).1,
   (claim_C9_amended "host:xy" (fun _ _ _ => Except.ok ())
      (fun _ => HttpResult.success)).2.1 (by decide),
   ((claim_C9_amended "http://x.com" (fun _ _ _ => Except.ok ())
      (fun _ => HttpResult.otherError "socket.timeout")).2.2.2
      "socket.timeout" rfl).1⟩
